import Mathlib

/-!
Shallow embedding of `elasticdl/python/elasticdl/callbacks.py`.

The file defines three Keras-style training callbacks:
* `SavedModelExporter.on_train_end` — exports the trained model in SavedModel
  format at the end of training;
* `MaxStepsStopping.on_task_end` — counts completed training steps and sets
  the model's `stop_training` flag once the counter exceeds `max_steps`;
* `LearningRateScheduler.on_train_batch_begin` — validates and applies a
  user-supplied learning-rate schedule before each batch.

Python integers are embedded as `Int`; `int(a / b)` (float true division
followed by truncation toward zero, exact for the integer ranges involved)
is embedded as `Int.tdiv`.  Exceptions are embedded as `Option`/error codes,
raised before any state write, exactly as the `raise` statements precede the
writes in the source.  The filesystem touched by the exporter is embedded as
a map from paths to directory contents, and the exporter additionally
returns the trace of filesystem operations it performs, in order.
-/

namespace ElasticDLCallbacks

/-- Task types from `elasticdl.proto.elasticdl_pb2`; `on_task_end` only
compares against `TRAINING`. -/
inductive TaskType where
  | TRAINING
  | EVALUATION
  | PREDICTION
  | WAIT
  | SAVE_MODEL
deriving DecidableEq, Repr

/-- The task record consumed by `MaxStepsStopping.on_task_end`: a `type`
and the record-index bounds `start` and `end`. -/
structure Task where
  type : TaskType
  start : Int
  «end» : Int
deriving DecidableEq, Repr

/-- The callback `params` mapping: the two keys this file reads,
`"batch_size"` and `"saved_model_path"`, each possibly absent (`none`
embeds both an absent key and an explicit Python `None`, matching
`params.get(key, None)`). -/
structure Params where
  batch_size : Option Int
  saved_model_path : Option String
deriving DecidableEq, Repr

/-- A Keras optimizer object: whether it exposes an `lr` attribute
(`hasattr(optimizer, "lr")`) and the current value of that attribute.
Learning-rate values are embedded as rationals. -/
structure Optimizer where
  has_lr : Bool
  lr : Rat
deriving DecidableEq, Repr

/-- The Keras model object shared by the callbacks: the `stop_training`
flag written by `MaxStepsStopping` and the `optimizer` reference
(`none` embeds Python `model.optimizer = None`). -/
structure Model where
  stop_training : Bool
  optimizer : Option Optimizer
deriving DecidableEq, Repr

/-- `MaxStepsStopping`'s own state: `_max_steps` and `_completed_steps`. -/
structure MaxStepsStopping where
  max_steps : Int
  completed_steps : Int
deriving DecidableEq, Repr

/-- `MaxStepsStopping.__init__(max_steps)`: the step counter starts at 0. -/
def MaxStepsStopping.init (max_steps : Int) : MaxStepsStopping :=
  { max_steps := max_steps, completed_steps := 0 }

/-- `MaxStepsStopping.set_completed_steps`: externally re-seed the counter
(used when resuming from a checkpoint). -/
def MaxStepsStopping.set_completed_steps
    (cb : MaxStepsStopping) (completed_steps : Int) : MaxStepsStopping :=
  { cb with completed_steps := completed_steps }

/-- Result of one `on_task_end` call: the callback state, the model, and
whether this call executed the `self.model.stop_training = True` write. -/
structure TaskEndResult where
  cb : MaxStepsStopping
  model : Model
  stop_written : Bool
deriving DecidableEq, Repr

/-- `MaxStepsStopping.on_task_end(task)`.  Reads `batch_size` from params;
for a `TRAINING` task computes `int(task_records / batch_size)` (embedded as
`Int.tdiv`), adds it to the counter, and sets `stop_training` when the
counter strictly exceeds `max_steps`.  `none` embeds the exception Python
raises when `batch_size` is `None` (`TypeError`) or `0`
(`ZeroDivisionError`) during the division; no state is written in that
case because the division precedes every write. -/
def MaxStepsStopping.on_task_end (cb : MaxStepsStopping) (model : Model)
    (params : Params) (task : Task) : Option TaskEndResult :=
  let batch_size := params.batch_size
  if task.type = TaskType.TRAINING then
    match batch_size with
    | none => none
    | some bs =>
      if bs = 0 then none
      else
        let task_records := task.«end» - task.start
        let task_batch_count := Int.tdiv task_records bs
        let completed := cb.completed_steps + task_batch_count
        let cb' := { cb with completed_steps := completed }
        if cb.max_steps < completed then
          some { cb := cb', model := { model with stop_training := true },
                 stop_written := true }
        else
          some { cb := cb', model := model, stop_written := false }
  else
    some { cb := cb, model := model, stop_written := false }

/-- Run a sequence of `on_task_end` calls, threading the callback state and
the model; `none` if any call raises. -/
def runTaskEnds (params : Params) :
    List Task → MaxStepsStopping → Model → Option (MaxStepsStopping × Model)
  | [], cb, model => some (cb, model)
  | t :: ts, cb, model =>
    match cb.on_task_end model params t with
    | none => none
    | some r => runTaskEnds params ts r.cb r.model

/-- The runtime type of a value returned by a schedule function, with its
payload.  `on_train_batch_begin` accepts exactly `tf.Tensor`, `float`,
`np.float32` and `np.float64`; a plain `int` or a `str` is rejected by the
`isinstance` check. -/
inductive SchedValue where
  | tfTensor (v : Rat)
  | pyFloat (v : Rat)
  | npFloat32 (v : Rat)
  | npFloat64 (v : Rat)
  | pyInt (n : Int)
  | pyStr (s : String)
deriving DecidableEq, Repr

/-- `isinstance(lr, (tf.Tensor, float, np.float32, np.float64))`. -/
def SchedValue.isFloatInstance : SchedValue → Bool
  | .tfTensor _ => true
  | .pyFloat _ => true
  | .npFloat32 _ => true
  | .npFloat64 _ => true
  | .pyInt _ => false
  | .pyStr _ => false

/-- `K.get_value(lr)`: the numeric payload of a schedule value. -/
def K_get_value : SchedValue → Rat
  | .tfTensor v => v
  | .pyFloat v => v
  | .npFloat32 v => v
  | .npFloat64 v => v
  | .pyInt n => (n : Rat)
  | .pyStr _ => 0

/-- `hasattr(self.model.optimizer, "lr")`: false when the optimizer
reference is `None` or the optimizer object lacks the attribute. -/
def Model.has_lr_attr (m : Model) : Bool :=
  match m.optimizer with
  | none => false
  | some opt => opt.has_lr

/-- The two `ValueError`s `on_train_batch_begin` can raise. -/
inductive LRError where
  | missing_lr_attr
  | non_float_schedule
deriving DecidableEq, Repr

/-- `LearningRateScheduler.__init__(schedule)`: stores the schedule, a
function of the batch index. -/
structure LearningRateScheduler where
  schedule : Int → SchedValue

/-- `LearningRateScheduler.on_train_batch_begin(batch)`.  Raises (second
component `some e`, model returned unchanged) when the optimizer lacks an
`lr` attribute — checked first — or when the schedule's return value fails
the `isinstance` float check; otherwise writes `K.get_value(lr)` into the
optimizer's `lr` (`K.set_value`). -/
def LearningRateScheduler.on_train_batch_begin
    (self : LearningRateScheduler) (model : Model) (batch : Int) :
    Model × Option LRError :=
  match model.optimizer with
  | none => (model, some LRError.missing_lr_attr)
  | some opt =>
    if opt.has_lr = false then
      (model, some LRError.missing_lr_attr)
    else
      let lr := self.schedule batch
      if lr.isFloatInstance = false then
        (model, some LRError.non_float_schedule)
      else
        ({ model with optimizer := some { opt with lr := K_get_value lr } },
         none)

/-- Modes from `elasticdl.python.common.constants.Mode`; the exporter
processes the dataset with `Mode.PREDICTION`. -/
inductive Mode where
  | TRAINING
  | EVALUATION
  | PREDICTION
deriving DecidableEq, Repr

/-- Reader metadata (`task_data_service.data_reader.metadata`), abstract. -/
abbrev Metadata := String

/-- A dataset pipeline: an abstract source, optionally transformed and
batched.  `batched` records a `dataset.batch(batch_size)` call. -/
inductive Dataset where
  | source (tag : String)
  | transformed (inner : Dataset) (mode : Mode) (meta : Metadata)
  | batched (inner : Dataset) (batch_size : Option Int)
deriving DecidableEq, Repr

/-- `dataset.batch(batch_size)`. -/
def Dataset.batch (d : Dataset) (batch_size : Option Int) : Dataset :=
  Dataset.batched d batch_size

/-- The slice of `TaskDataService` the exporter consumes: the train-end
callback task, the dataset lookup for a task, and the reader metadata. -/
structure TaskDataService where
  train_end_callback_task : Task
  dataset_by_task : Task → Option Dataset
  metadata : Metadata

/-- The slice of `ModelHandler` the exporter consumes:
`get_model_to_export(model, dataset)`. -/
structure ModelHandler where
  get_model_to_export : Model → Dataset → Model

/-- One entry of a directory on disk: either a serialized model written by
`tf.saved_model.save`, or any other pre-existing file. -/
inductive DirFile where
  | modelFile (m : Model)
  | plain (name : String)
deriving DecidableEq, Repr

/-- The filesystem: a map from paths to directory contents; `none` means
nothing exists at the path (`os.path.exists` is false). -/
def FileSystem := String → Option (List DirFile)

/-- A filesystem operation performed by the exporter, in the order
executed: `shutil.rmtree(path)` or `tf.saved_model.save(model, path)`. -/
inductive FSOp where
  | rmtree (path : String)
  | save (path : String) (m : Model)
deriving DecidableEq, Repr

/-- Effect of one operation.  `rmtree` removes the directory in its
entirety; `save` writes the serialized model into the directory, keeping
whatever files already exist there (saving into a non-empty directory
merges; only a preceding `rmtree` makes it a replacement). -/
def FSOp.apply (fs : FileSystem) : FSOp → FileSystem
  | .rmtree p => fun q => if q = p then none else fs q
  | .save p m =>
    fun q => if q = p then some (((fs p).getD []) ++ [DirFile.modelFile m])
             else fs q

/-- Effect of a list of operations, applied left to right. -/
def applyOps (fs : FileSystem) (ops : List FSOp) : FileSystem :=
  ops.foldl FSOp.apply fs

/-- `SavedModelExporter.__init__(task_data_service, dataset_fn,
model_handler)`. -/
structure SavedModelExporter where
  task_data_service : TaskDataService
  dataset_fn : Dataset → Mode → Metadata → Dataset
  model_handler : ModelHandler

/-- `SavedModelExporter.on_train_end`.  Returns early with no operations
when `saved_model_path` is absent/`None`/empty, or when
`get_dataset_by_task` returns `None`.  Otherwise builds the export model,
removes a pre-existing directory at the path if one exists, detaches the
export model's optimizer (`model.optimizer = None`), and saves.  Returns
the operation trace in execution order and the resulting filesystem;
`self.model` itself is never written. -/
def SavedModelExporter.on_train_end (self : SavedModelExporter)
    (params : Params) (model0 : Model) (fs : FileSystem) :
    List FSOp × FileSystem :=
  let saved_model_path? := params.saved_model_path
  match saved_model_path? with
  | none => ([], fs)
  | some saved_model_path =>
    if saved_model_path = "" then ([], fs)
    else
      let batch_size := params.batch_size
      let task := self.task_data_service.train_end_callback_task
      match self.task_data_service.dataset_by_task task with
      | none => ([], fs)
      | some dataset =>
        let dataset := self.dataset_fn dataset Mode.PREDICTION
          self.task_data_service.metadata
        let dataset := dataset.batch batch_size
        let model := self.model_handler.get_model_to_export model0 dataset
        let rmOps := if (fs saved_model_path).isSome then
            [FSOp.rmtree saved_model_path]
          else []
        let model := { model with optimizer := none }
        let ops := rmOps ++ [FSOp.save saved_model_path model]
        (ops, applyOps fs ops)

/-- The model actually serialized by a successful export: the handler's
export model for the processed, batched dataset, with the optimizer
reference detached. -/
def exportedModel (self : SavedModelExporter) (params : Params)
    (model0 : Model) (ds : Dataset) : Model :=
  { self.model_handler.get_model_to_export model0
      ((self.dataset_fn ds Mode.PREDICTION
        self.task_data_service.metadata).batch params.batch_size)
    with optimizer := none }

/-! Helper lemmas -/

/-- `on_task_end` on a non-TRAINING task returns everything unchanged and
performs no write. -/
lemma on_task_end_eq_of_not_training (cb : MaxStepsStopping) (model : Model)
    (params : Params) (task : Task)
    (h : ¬ task.type = TaskType.TRAINING) :
    cb.on_task_end model params task
      = some { cb := cb, model := model, stop_written := false } := by
  unfold MaxStepsStopping.on_task_end
  rw [if_neg h]

/-- `on_task_end` on a TRAINING task with a present, non-zero batch size:
the counter gains `Int.tdiv task_records batch_size` and the stop flag is
written exactly when the new counter strictly exceeds `max_steps`. -/
lemma on_task_end_eq_of_training (cb : MaxStepsStopping) (model : Model)
    (params : Params) (task : Task) (bs : Int)
    (hbs : params.batch_size = some bs) (hb0 : bs ≠ 0)
    (htype : task.type = TaskType.TRAINING) :
    cb.on_task_end model params task
      = (if cb.max_steps
             < cb.completed_steps + Int.tdiv (task.«end» - task.start) bs
         then
           some ⟨⟨cb.max_steps,
                  cb.completed_steps
                    + Int.tdiv (task.«end» - task.start) bs⟩,
                 { model with stop_training := true }, true⟩
         else
           some ⟨⟨cb.max_steps,
                  cb.completed_steps
                    + Int.tdiv (task.«end» - task.start) bs⟩,
                 model, false⟩) := by
  unfold MaxStepsStopping.on_task_end
  rw [htype, hbs]
  simp [hb0]

/-- Invariant of `runTaskEnds`: with a present positive batch size and
well-formed tasks (`start ≤ end`), no call raises, `max_steps` is
preserved, the counter is monotone, and the stop flag equals "the counter
strictly exceeds `max_steps`" whenever it does initially. -/
lemma runTaskEnds_stop_invariant (params : Params) (bs : Int)
    (hbs : params.batch_size = some bs) (hpos : 0 < bs) :
    ∀ (tasks : List Task), (∀ t ∈ tasks, t.start ≤ t.«end») →
    ∀ (cb : MaxStepsStopping) (model : Model),
      (model.stop_training = true ↔ cb.max_steps < cb.completed_steps) →
      ∃ cb' model',
        runTaskEnds params tasks cb model = some (cb', model') ∧
        cb'.max_steps = cb.max_steps ∧
        cb.completed_steps ≤ cb'.completed_steps ∧
        (model'.stop_training = true
          ↔ cb'.max_steps < cb'.completed_steps) := by
  intro tasks
  induction tasks with
  | nil =>
    intro _ cb model hinv
    exact ⟨cb, model, rfl, rfl, le_refl _, hinv⟩
  | cons t ts ih =>
    intro hall cb model hinv
    have ht : t.start ≤ t.«end» := hall t (List.mem_cons_self t ts)
    have hts : ∀ u ∈ ts, u.start ≤ u.«end» :=
      fun u hu => hall u (List.mem_cons_of_mem t hu)
    have hk : 0 ≤ Int.tdiv (t.«end» - t.start) bs :=
      Int.tdiv_nonneg (by omega) (le_of_lt hpos)
    by_cases htype : t.type = TaskType.TRAINING
    · rw [runTaskEnds,
        on_task_end_eq_of_training cb model params t bs hbs (by omega) htype]
      by_cases hgt : cb.max_steps
          < cb.completed_steps + Int.tdiv (t.«end» - t.start) bs
      · rw [if_pos hgt]
        obtain ⟨cb', model', hrun, hmax, hle, hinv'⟩ :=
          ih hts
            ⟨cb.max_steps,
             cb.completed_steps + Int.tdiv (t.«end» - t.start) bs⟩
            { model with stop_training := true } (by simpa using hgt)
        exact ⟨cb', model', hrun, hmax, by simp at hle ⊢; omega, hinv'⟩
      · rw [if_neg hgt]
        obtain ⟨cb', model', hrun, hmax, hle, hinv'⟩ :=
          ih hts
            ⟨cb.max_steps,
             cb.completed_steps + Int.tdiv (t.«end» - t.start) bs⟩
            model (by rw [hinv]; simp; omega)
        exact ⟨cb', model', hrun, hmax, by simp at hle ⊢; omega, hinv'⟩
    · rw [runTaskEnds, on_task_end_eq_of_not_training cb model params t htype]
      exact ih hts cb model hinv

/-- `on_train_batch_begin` with no usable `lr` attribute raises the
configuration `ValueError`, before the schedule's value is examined. -/
lemma on_train_batch_begin_missing (self : LearningRateScheduler)
    (model : Model) (batch : Int) (hattr : model.has_lr_attr = false) :
    self.on_train_batch_begin model batch
      = (model, some LRError.missing_lr_attr) := by
  unfold LearningRateScheduler.on_train_batch_begin
  cases hopt : model.optimizer with
  | none => rfl
  | some opt =>
    have hlr : opt.has_lr = false := by
      simpa [Model.has_lr_attr, hopt] using hattr
    simp [hlr]

/-- `on_train_batch_begin` with an `lr` attribute but a schedule value
failing the `isinstance` float check raises the validation `ValueError`. -/
lemma on_train_batch_begin_not_float (self : LearningRateScheduler)
    (model : Model) (batch : Int) (hattr : model.has_lr_attr = true)
    (hfl : (self.schedule batch).isFloatInstance = false) :
    self.on_train_batch_begin model batch
      = (model, some LRError.non_float_schedule) := by
  unfold LearningRateScheduler.on_train_batch_begin
  cases hopt : model.optimizer with
  | none => simp [Model.has_lr_attr, hopt] at hattr
  | some opt =>
    have hlr : opt.has_lr = true := by
      simpa [Model.has_lr_attr, hopt] using hattr
    simp [hlr, hfl]

/-- `on_train_batch_begin` on the success path writes `K.get_value` of the
schedule's value into the optimizer's `lr` and raises nothing. -/
lemma on_train_batch_begin_success (self : LearningRateScheduler)
    (model : Model) (batch : Int) (opt : Optimizer)
    (hopt : model.optimizer = some opt) (hlr : opt.has_lr = true)
    (hfl : (self.schedule batch).isFloatInstance = true) :
    self.on_train_batch_begin model batch
      = ({ model with
            optimizer :=
              some { opt with lr := K_get_value (self.schedule batch) } },
         none) := by
  unfold LearningRateScheduler.on_train_batch_begin
  rw [hopt]
  simp [hlr, hfl]

/-! Claim theorems -/

/-- C1 (counterexample): with `max_steps = 1000`, counter re-seeded to 999
via `set_completed_steps`, one `on_task_end` call with a TRAINING task of
50 records and `batch_size = 50` brings the counter to exactly 1000, which
does NOT strictly exceed `max_steps`, so `stop_training` stays false — the
claim asserts it becomes true. -/
theorem resume_999_one_task_counterexample :
    (((MaxStepsStopping.init 1000).set_completed_steps 999).on_task_end
          { stop_training := false, optimizer := none }
          { batch_size := some 50, saved_model_path := none }
          { type := TaskType.TRAINING, start := 0, «end» := 50 }).map
        (fun r => r.model.stop_training)
      ≠ some true
    ∧ ((MaxStepsStopping.init 1000).set_completed_steps 999).on_task_end
          { stop_training := false, optimizer := none }
          { batch_size := some 50, saved_model_path := none }
          { type := TaskType.TRAINING, start := 0, «end» := 50 }
        = some { cb := { max_steps := 1000, completed_steps := 1000 },
                 model := { stop_training := false, optimizer := none },
                 stop_written := false } := by
  constructor <;> decide

/-- C1 (amended): with `max_steps = 1000` and the counter re-seeded to 999,
one 50-record/50-batch-size TRAINING task brings the counter to 1000 and
leaves `stop_training` false (the counter must strictly exceed
`max_steps`); a second identical task brings it to 1001 and sets
`stop_training` true. -/
theorem resume_999_two_tasks_stop :
    runTaskEnds { batch_size := some 50, saved_model_path := none }
        [{ type := TaskType.TRAINING, start := 0, «end» := 50 },
         { type := TaskType.TRAINING, start := 0, «end» := 50 }]
        ((MaxStepsStopping.init 1000).set_completed_steps 999)
        { stop_training := false, optimizer := none }
      = some ({ max_steps := 1000, completed_steps := 1001 },
              { stop_training := true, optimizer := none })
    ∧ ((MaxStepsStopping.init 1000).set_completed_steps 999).on_task_end
        { stop_training := false, optimizer := none }
        { batch_size := some 50, saved_model_path := none }
        { type := TaskType.TRAINING, start := 0, «end» := 50 }
      = some { cb := { max_steps := 1000, completed_steps := 1000 },
               model := { stop_training := false, optimizer := none },
               stop_written := false } := by
  constructor <;> decide

/-- C2: a TRAINING-task `on_task_end` call with `batch_size` present and
positive in params and a well-formed task (`start ≤ end`) increases the
completed-step counter by exactly `⌊(task.end - task.start) / batch_size⌋`
(`Int.fdiv` is floor division; on these inputs Python's
`int(task_records / batch_size)` agrees with it). -/
theorem training_task_increments_by_floor (cb : MaxStepsStopping)
    (model : Model) (params : Params) (task : Task) (bs : Int)
    (hbs : params.batch_size = some bs) (hpos : 0 < bs)
    (htype : task.type = TaskType.TRAINING)
    (hrec : task.start ≤ task.«end») :
    ∃ r, cb.on_task_end model params task = some r ∧
      r.cb.completed_steps
        = cb.completed_steps + Int.fdiv (task.«end» - task.start) bs := by
  have h0b : (0:Int) ≤ bs := le_of_lt hpos
  have hdiv : Int.tdiv (task.«end» - task.start) bs
      = Int.fdiv (task.«end» - task.start) bs := by
    rw [Int.tdiv_eq_ediv (by omega) h0b, Int.fdiv_eq_ediv _ h0b]
  rw [on_task_end_eq_of_training cb model params task bs hbs (by omega) htype]
  split
  · exact ⟨_, rfl, by simp [hdiv]⟩
  · exact ⟨_, rfl, by simp [hdiv]⟩

/-- C2 witness: `max_steps = 4`, counter 0, task `(0, 250)`, batch size 50:
the counter becomes `0 + ⌊250 / 50⌋`. -/
theorem training_task_increments_by_floor_witness :
    ({ batch_size := some 50, saved_model_path := none } : Params).batch_size
        = some 50
    ∧ (0:Int) < 50
    ∧ ∃ r, (MaxStepsStopping.init 4).on_task_end
          { stop_training := false, optimizer := none }
          { batch_size := some 50, saved_model_path := none }
          { type := TaskType.TRAINING, start := 0, «end» := 250 } = some r ∧
        r.cb.completed_steps
          = (MaxStepsStopping.init 4).completed_steps + Int.fdiv (250 - 0) 50 :=
  ⟨rfl, by decide,
   training_task_increments_by_floor _ _ _ _ 50 rfl (by decide) rfl (by decide)⟩

/-- C3: along any sequence of `on_task_end` calls on a freshly constructed
`MaxStepsStopping` (batch size present and positive, `max_steps ≥ 0`,
well-formed tasks, stop flag initially false), the model's `stop_training`
flag is true after the sequence exactly when the completed-step counter
strictly exceeds `max_steps`; in particular it is never set while the
counter is at most `max_steps`.  Every prefix of a sequence is itself such
a sequence, so this characterizes the flag after each call. -/
theorem stop_flag_iff_steps_exceed (params : Params) (bs max_steps : Int)
    (tasks : List Task) (model : Model)
    (hbs : params.batch_size = some bs) (hpos : 0 < bs)
    (hmax : 0 ≤ max_steps) (hstop : model.stop_training = false)
    (htasks : ∀ t ∈ tasks, t.start ≤ t.«end») :
    ∃ cb' model',
      runTaskEnds params tasks (MaxStepsStopping.init max_steps) model
        = some (cb', model') ∧
      (model'.stop_training = true ↔ max_steps < cb'.completed_steps) := by
  obtain ⟨cb', model', hrun, hmaxeq, hle, hinv⟩ :=
    runTaskEnds_stop_invariant params bs hbs hpos tasks htasks
      (MaxStepsStopping.init max_steps) model
      (by simp [hstop, MaxStepsStopping.init]; omega)
  refine ⟨cb', model', hrun, ?_⟩
  rw [hinv, hmaxeq]
  rfl

/-- C3 witness: `max_steps = 4`, batch size 50, a TRAINING task of 250
records followed by an EVALUATION task. -/
theorem stop_flag_iff_steps_exceed_witness :
    (0:Int) < 50 ∧ (0:Int) ≤ 4
    ∧ ∃ cb' model',
        runTaskEnds { batch_size := some 50, saved_model_path := none }
            [{ type := TaskType.TRAINING, start := 0, «end» := 250 },
             { type := TaskType.EVALUATION, start := 0, «end» := 10 }]
            (MaxStepsStopping.init 4)
            { stop_training := false, optimizer := none }
          = some (cb', model') ∧
        (model'.stop_training = true ↔ (4:Int) < cb'.completed_steps) :=
  ⟨by decide, by decide,
   stop_flag_iff_steps_exceed _ 50 4 _ _ rfl (by decide) (by decide) rfl
     (by decide)⟩

/-- C5: an `on_task_end` call with a non-TRAINING task leaves the callback
state and the model untouched and performs no `stop_training` write,
whatever the params hold. -/
theorem non_training_task_no_effect (cb : MaxStepsStopping) (model : Model)
    (params : Params) (task : Task)
    (h : task.type ≠ TaskType.TRAINING) :
    cb.on_task_end model params task
      = some { cb := cb, model := model, stop_written := false } :=
  on_task_end_eq_of_not_training cb model params task h

/-- C5 witness: an EVALUATION task of 100 records, with no batch size in
params at all, changes nothing. -/
theorem non_training_task_no_effect_witness :
    (({ type := TaskType.EVALUATION, start := 3, «end» := 103 } : Task).type
        ≠ TaskType.TRAINING)
    ∧ (MaxStepsStopping.init 7).on_task_end
          { stop_training := false, optimizer := none }
          { batch_size := none, saved_model_path := none }
          { type := TaskType.EVALUATION, start := 3, «end» := 103 }
        = some { cb := MaxStepsStopping.init 7,
                 model := { stop_training := false, optimizer := none },
                 stop_written := false } :=
  ⟨by decide, non_training_task_no_effect _ _ _ _ (by decide)⟩

/-- C4: with `max_steps = 4` and counter 0, one `on_task_end` call with a
TRAINING task `(start = 0, end = 250)` and `batch_size = 50` makes the
counter 5 and sets `stop_training` true. -/
theorem task_250_records_stops :
    (MaxStepsStopping.init 4).on_task_end
        { stop_training := false, optimizer := none }
        { batch_size := some 50, saved_model_path := none }
        { type := TaskType.TRAINING, start := 0, «end» := 250 }
      = some { cb := { max_steps := 4, completed_steps := 5 },
               model := { stop_training := true, optimizer := none },
               stop_written := true } := by
  decide

/-- C6: `on_train_batch_begin` raises exactly when the optimizer lacks an
`lr` attribute or the schedule's value fails the float `isinstance` check;
the missing-attribute configuration error is checked first; and on success
the schedule's value is written into the optimizer's `lr`. -/
theorem lr_schedule_validation (self : LearningRateScheduler) (model : Model)
    (batch : Int) :
    ((self.on_train_batch_begin model batch).2.isSome = true
      ↔ (model.has_lr_attr = false
          ∨ (self.schedule batch).isFloatInstance = false))
    ∧ (model.has_lr_attr = false →
        (self.on_train_batch_begin model batch).2
          = some LRError.missing_lr_attr)
    ∧ (model.has_lr_attr = true →
        (self.schedule batch).isFloatInstance = false →
        self.on_train_batch_begin model batch
          = (model, some LRError.non_float_schedule))
    ∧ (∀ opt, model.optimizer = some opt → opt.has_lr = true →
        (self.schedule batch).isFloatInstance = true →
        self.on_train_batch_begin model batch
          = ({ model with
                optimizer :=
                  some { opt with
                          lr := K_get_value (self.schedule batch) } },
             none)) := by
  by_cases hattr : model.has_lr_attr = true
  · by_cases hfl : (self.schedule batch).isFloatInstance = true
    · obtain ⟨opt, hopt⟩ : ∃ opt, model.optimizer = some opt := by
        cases hopt : model.optimizer with
        | none => simp [Model.has_lr_attr, hopt] at hattr
        | some opt => exact ⟨opt, rfl⟩
      have hlr : opt.has_lr = true := by
        simpa [Model.has_lr_attr, hopt] using hattr
      have hrun :=
        on_train_batch_begin_success self model batch opt hopt hlr hfl
      refine ⟨?_, ?_, ?_, ?_⟩
      · simp [hrun, hattr, hfl]
      · intro h; rw [h] at hattr; cases hattr
      · intro _ h; rw [h] at hfl; cases hfl
      · intro opt2 hopt2 _ _
        rw [hopt] at hopt2
        injection hopt2 with h2
        subst h2
        exact hrun
    · have hfl' : (self.schedule batch).isFloatInstance = false := by
        revert hfl; cases (self.schedule batch).isFloatInstance <;> simp
      have hrun := on_train_batch_begin_not_float self model batch hattr hfl'
      refine ⟨?_, ?_, ?_, ?_⟩
      · simp [hrun, hfl']
      · intro h; rw [h] at hattr; cases hattr
      · intro _ _; exact hrun
      · intro opt2 _ _ hfl2
        rw [hfl2] at hfl'
        cases hfl'
  · have hattr' : model.has_lr_attr = false := by
      revert hattr; cases model.has_lr_attr <;> simp
    have hrun := on_train_batch_begin_missing self model batch hattr'
    refine ⟨?_, ?_, ?_, ?_⟩
    · simp [hrun, hattr']
    · intro _; rw [hrun]
    · intro h _; rw [h] at hattr'; cases hattr'
    · intro opt2 hopt2 hlr2 _
      simp [Model.has_lr_attr, hopt2, hlr2] at hattr'

/-- C6 witness: a schedule returning the string `"x"` raises the
validation error; a schedule returning the float `0.001` raises nothing
and writes `0.001` into the optimizer's `lr`. -/
theorem lr_schedule_validation_witness :
    LearningRateScheduler.on_train_batch_begin
        ⟨fun _ => SchedValue.pyStr "x"⟩
        { stop_training := false,
          optimizer := some { has_lr := true, lr := 1/10 } } 0
      = ({ stop_training := false,
           optimizer := some { has_lr := true, lr := 1/10 } },
         some LRError.non_float_schedule)
    ∧ LearningRateScheduler.on_train_batch_begin
        ⟨fun _ => SchedValue.pyFloat (1/1000)⟩
        { stop_training := false,
          optimizer := some { has_lr := true, lr := 1/10 } } 0
      = ({ stop_training := false,
           optimizer := some { has_lr := true, lr := 1/1000 } },
         none) :=
  ⟨(lr_schedule_validation ⟨fun _ => SchedValue.pyStr "x"⟩
      { stop_training := false,
        optimizer := some { has_lr := true, lr := 1/10 } } 0).2.2.1 rfl rfl,
   (lr_schedule_validation ⟨fun _ => SchedValue.pyFloat (1/1000)⟩
      { stop_training := false,
        optimizer := some { has_lr := true, lr := 1/10 } } 0).2.2.2
     { has_lr := true, lr := 1/10 } rfl rfl rfl⟩

/-- C10: a schedule returning a plain Python `int` fails the `isinstance`
check (only `tf.Tensor`, `float`, `np.float32`, `np.float64` pass), so the
validation error is raised with the model returned unchanged; and whenever
either error is raised, the model — in particular the optimizer's `lr` —
is unchanged. -/
theorem int_schedule_rejected (self : LearningRateScheduler) (model : Model)
    (batch : Int) :
    (∀ n, self.schedule batch = SchedValue.pyInt n →
        model.has_lr_attr = true →
        self.on_train_batch_begin model batch
          = (model, some LRError.non_float_schedule))
    ∧ (∀ e, (self.on_train_batch_begin model batch).2 = some e →
        (self.on_train_batch_begin model batch).1 = model) := by
  constructor
  · intro n hn hattr
    exact on_train_batch_begin_not_float self model batch hattr
      (by rw [hn]; rfl)
  · intro e he
    by_cases hattr : model.has_lr_attr = true
    · by_cases hfl : (self.schedule batch).isFloatInstance = true
      · obtain ⟨opt, hopt⟩ : ∃ opt, model.optimizer = some opt := by
          cases hopt : model.optimizer with
          | none => simp [Model.has_lr_attr, hopt] at hattr
          | some opt => exact ⟨opt, rfl⟩
        have hlr : opt.has_lr = true := by
          simpa [Model.has_lr_attr, hopt] using hattr
        rw [on_train_batch_begin_success self model batch opt hopt hlr hfl]
          at he
        simp at he
      · have hfl' : (self.schedule batch).isFloatInstance = false := by
          revert hfl; cases (self.schedule batch).isFloatInstance <;> simp
        rw [on_train_batch_begin_not_float self model batch hattr hfl']
    · have hattr' : model.has_lr_attr = false := by
        revert hattr; cases model.has_lr_attr <;> simp
      rw [on_train_batch_begin_missing self model batch hattr']

/-- C10 witness: a schedule returning the integer `3` raises the
validation error and leaves the model, including the optimizer's `lr`,
unchanged. -/
theorem int_schedule_rejected_witness :
    LearningRateScheduler.on_train_batch_begin
        ⟨fun _ => SchedValue.pyInt 3⟩
        { stop_training := false,
          optimizer := some { has_lr := true, lr := 1/10 } } 0
      = ({ stop_training := false,
           optimizer := some { has_lr := true, lr := 1/10 } },
         some LRError.non_float_schedule) :=
  (int_schedule_rejected ⟨fun _ => SchedValue.pyInt 3⟩
     { stop_training := false,
       optimizer := some { has_lr := true, lr := 1/10 } } 0).1 3 rfl rfl

/-- C7: with no configured `saved_model_path` (key absent/`None`, or the
empty string), `on_train_end` returns immediately: no filesystem operation
is performed and the filesystem (hence also every model artifact) is
untouched. -/
theorem export_skipped_without_path (self : SavedModelExporter)
    (params : Params) (model0 : Model) (fs : FileSystem)
    (h : params.saved_model_path = none
      ∨ params.saved_model_path = some "") :
    self.on_train_end params model0 fs = ([], fs) := by
  unfold SavedModelExporter.on_train_end
  rcases h with h | h
  · rw [h]
  · rw [h]
    simp

/-- C9: with a configured `saved_model_path` but `get_dataset_by_task`
returning `None`, `on_train_end` silently returns: no deletion, no save,
no change to the filesystem — even if an artifact already exists at the
path. -/
theorem export_skipped_without_dataset (self : SavedModelExporter)
    (params : Params) (model0 : Model) (fs : FileSystem) (p : String)
    (hp : params.saved_model_path = some p) (hne : ¬ p = "")
    (hds : self.task_data_service.dataset_by_task
        self.task_data_service.train_end_callback_task = none) :
    self.on_train_end params model0 fs = ([], fs) := by
  unfold SavedModelExporter.on_train_end
  rw [hp]
  dsimp only
  rw [if_neg hne]
  rw [hds]

/-- C8: with a configured `saved_model_path` at which a directory already
exists and a dataset present, `on_train_end` first removes the directory
in its entirety (`rmtree` precedes `save` in the operation trace), so the
final directory holds exactly the freshly serialized model — a
replacement, not a merge; every other path is untouched; and the
serialized model has its optimizer reference detached. -/
theorem export_replaces_existing_dir (self : SavedModelExporter)
    (params : Params) (model0 : Model) (fs : FileSystem)
    (p : String) (ds : Dataset) (files : List DirFile)
    (hp : params.saved_model_path = some p) (hne : ¬ p = "")
    (hds : self.task_data_service.dataset_by_task
        self.task_data_service.train_end_callback_task = some ds)
    (hfs : fs p = some files) :
    (self.on_train_end params model0 fs).1
      = [FSOp.rmtree p, FSOp.save p (exportedModel self params model0 ds)]
    ∧ (self.on_train_end params model0 fs).2 p
      = some [DirFile.modelFile (exportedModel self params model0 ds)]
    ∧ (∀ q, ¬ q = p → (self.on_train_end params model0 fs).2 q = fs q)
    ∧ (exportedModel self params model0 ds).optimizer = none := by
  have hrun : self.on_train_end params model0 fs
      = ([FSOp.rmtree p, FSOp.save p (exportedModel self params model0 ds)],
         applyOps fs
           [FSOp.rmtree p,
            FSOp.save p (exportedModel self params model0 ds)]) := by
    unfold SavedModelExporter.on_train_end
    rw [hp]
    dsimp only
    rw [if_neg hne]
    rw [hds]
    simp [hfs, exportedModel, Dataset.batch]
  refine ⟨by rw [hrun], ?_, ?_, rfl⟩
  · rw [hrun]
    simp [applyOps, FSOp.apply]
  · intro q hq
    rw [hrun]
    simp [applyOps, FSOp.apply, hq]

/-- Fixture: a task-data service whose dataset lookup always answers `d`. -/
def sampleService (d : Option Dataset) : TaskDataService :=
  { train_end_callback_task :=
      { type := TaskType.TRAINING, start := 0, «end» := 0 },
    dataset_by_task := fun _ => d,
    metadata := "meta" }

/-- Fixture: an exporter whose dataset transform and model handler are
identities. -/
def sampleExporter (d : Option Dataset) : SavedModelExporter :=
  { task_data_service := sampleService d,
    dataset_fn := fun ds _ _ => ds,
    model_handler := { get_model_to_export := fun m _ => m } }

/-- Fixture: a model with a compiled optimizer attached. -/
def sampleModel : Model :=
  { stop_training := false, optimizer := some { has_lr := true, lr := 1/10 } }

/-- Fixture: a filesystem holding exactly one directory. -/
def fsSingle (p : String) (files : List DirFile) : FileSystem :=
  fun q => if q = p then some files else none

/-- C7 witness: an absent `saved_model_path` leaves a filesystem holding a
pre-existing directory untouched, with no operations. -/
theorem export_skipped_without_path_witness :
    (({ batch_size := some 32, saved_model_path := none }
        : Params).saved_model_path = none
      ∨ ({ batch_size := some 32, saved_model_path := none }
          : Params).saved_model_path = some "")
    ∧ (sampleExporter (some (Dataset.source "d"))).on_train_end
          { batch_size := some 32, saved_model_path := none }
          sampleModel (fsSingle "m" [DirFile.plain "junk"])
        = ([], fsSingle "m" [DirFile.plain "junk"]) :=
  ⟨Or.inl rfl, export_skipped_without_path _ _ _ _ (Or.inl rfl)⟩

/-- C9 witness: path `"m"` configured and an artifact present there, but
the dataset lookup answers `None`: nothing happens. -/
theorem export_skipped_without_dataset_witness :
    (sampleExporter none).task_data_service.dataset_by_task
        (sampleExporter none).task_data_service.train_end_callback_task
      = none
    ∧ (sampleExporter none).on_train_end
          { batch_size := some 32, saved_model_path := some "m" }
          sampleModel (fsSingle "m" [DirFile.plain "junk"])
        = ([], fsSingle "m" [DirFile.plain "junk"]) :=
  ⟨rfl, export_skipped_without_dataset _ _ _ _ "m" rfl (by decide) rfl⟩

/-- C8 witness: path `"m"` holds a junk file; after `on_train_end` the
trace is `rmtree` then `save`, and `"m"` holds exactly the freshly saved,
optimizer-free model. -/
theorem export_replaces_existing_dir_witness :
    fsSingle "m" [DirFile.plain "junk"] "m" = some [DirFile.plain "junk"]
    ∧ ((sampleExporter (some (Dataset.source "d"))).on_train_end
          { batch_size := some 32, saved_model_path := some "m" }
          sampleModel (fsSingle "m" [DirFile.plain "junk"])).1
        = [FSOp.rmtree "m",
           FSOp.save "m" { stop_training := false, optimizer := none }]
    ∧ ((sampleExporter (some (Dataset.source "d"))).on_train_end
          { batch_size := some 32, saved_model_path := some "m" }
          sampleModel (fsSingle "m" [DirFile.plain "junk"])).2 "m"
        = some [DirFile.modelFile
                  { stop_training := false, optimizer := none }] := by
  have h := export_replaces_existing_dir
    (sampleExporter (some (Dataset.source "d")))
    { batch_size := some 32, saved_model_path := some "m" }
    sampleModel (fsSingle "m" [DirFile.plain "junk"])
    "m" (Dataset.source "d") [DirFile.plain "junk"]
    rfl (by decide) rfl (by decide)
  refine ⟨by decide, ?_, ?_⟩
  · rw [h.1]
    decide
  · rw [h.2.1]
    decide

end ElasticDLCallbacks
